import Mathlib

/-!
Verification of the WebVerse content-authoring backend against its
specification.  The Python services are shallowly embedded: each service
function becomes a Lean function over explicit data, the remote AEM
repository becomes an oracle (a status function, or an explicit world for
the stateful DAM-folder claims), and every outgoing HTTP request a helper
issues is collected in a trace so that claims about "which network calls
are made" are statable.
-/

/-- A form-field / JCR-property map, as sent in a form-encoded POST body.
Python `dict` is modelled as an association list (insertion ordered). -/
abbrev Dict := List (String × String)

/-- Python `d[k] = v` on a dict: overwrite in place if the key is present,
else append at the end. -/
def dictSet (d : Dict) (k v : String) : Dict :=
  if d.any (fun p => p.1 = k) then
    d.map (fun p => if p.1 = k then (k, v) else p)
  else
    d ++ [(k, v)]

/-- Python truthiness test `not x` for an optional dict argument:
true for `None` and for an empty dict. -/
def pyFalsy : Option Dict → Bool
  | none => true
  | some d => d.isEmpty

/-- One outgoing HTTP request.  `headers` holds only the per-call extra
headers the code passes explicitly (the session-wide `Referer` header and
basic-auth set at client construction are not per-call data). -/
structure Request where
  method : String
  url : String
  data : Dict
  headers : Dict
  deriving Repr, DecidableEq

/-- Status is in the 2xx range. -/
def is2xx (s : Nat) : Bool := 200 ≤ s && s < 300

/-- `AEMClient._get_headers`: CSRF token header when a token was fetched,
else the `X-Requested-With` fallback. -/
def getHeaders (csrf_token : Option String) : Dict :=
  match csrf_token with
  | some t => [("CSRF-Token", t)]
  | none => [("X-Requested-With", "XMLHttpRequest")]

/-- Does a request carry one of the two anti-forgery headers? -/
def hasSecurityHeader (r : Request) : Bool :=
  r.headers.any (fun p => p.1 = "CSRF-Token" || p.1 = "X-Requested-With")

/-- Result dict shape shared by the page-update helpers. -/
structure PageResult where
  success : Bool
  page_path : String
  error : Option String := none
  error_type : Option String := none
  message : Option String := none
  skipped : Bool := false
  deriving Repr, DecidableEq

/-- The POST oracle: the status code the remote repository answers with,
as a function of target url and form data. -/
abbrev PostOracle := String → Dict → Nat

/-- `update_page_with_jcr_content` (create_error_pages.py, and the
identical copies in create_login_pages.py / create_protected_pages.py /
modify_locale.py): POST the JCR content to `host ++ page_path` with no
per-call headers, succeed iff the status is 200 or 201.  Returns the
boolean outcome and the single-request trace. -/
def update_page_with_jcr_content (host : String) (post : PostOracle)
    (page_path : String) (jcr_content : Dict) : Bool × List Request :=
  let status := post (host ++ page_path) jcr_content
  let req : Request := ⟨"POST", host ++ page_path, jcr_content, []⟩
  ((status == 200 || status == 201), [req])

/-- `create_error_page` (create_error_pages.py): validate the payload is
truthy, copy it, set `_charset_`, delegate to the write helper; a failed
write raises, is caught, and becomes a failure result. -/
def create_error_page (host : String) (post : PostOracle) (page_path : String)
    (error_type : String) (custom_jcr_content : Option Dict) :
    PageResult × List Request :=
  if pyFalsy custom_jcr_content then
    ({ success := false
       page_path := page_path
       error := some ("No JCR content provided for " ++ error_type ++
         " error page. JCR content is required to update the page.")
       error_type := some error_type }, [])
  else
    let page_data := dictSet (custom_jcr_content.getD []) "_charset_" "utf-8"
    let (ok, trace) := update_page_with_jcr_content host post page_path page_data
    if ok then
      ({ success := true
         page_path := page_path
         error_type := some error_type
         message := some ("Page updated at " ++ page_path) }, trace)
    else
      ({ success := false
         page_path := page_path
         error := some ("Failed to update error page with JCR content at " ++ page_path)
         error_type := some error_type }, trace)

/-- `update_protected_page` (create_protected_pages.py): same contract
shape as `create_error_page`, without the error-type tag. -/
def update_protected_page (host : String) (post : PostOracle)
    (page_path : String) (custom_jcr_content : Option Dict) :
    PageResult × List Request :=
  if pyFalsy custom_jcr_content then
    ({ success := false
       page_path := page_path
       error := some "No JCR content provided for protected page. JCR content is required to update the page." }, [])
  else
    let page_data := dictSet (custom_jcr_content.getD []) "_charset_" "utf-8"
    let (ok, trace) := update_page_with_jcr_content host post page_path page_data
    if ok then
      ({ success := true
         page_path := page_path
         message := some ("Page updated at " ++ page_path) }, trace)
    else
      ({ success := false
         page_path := page_path
         error := some ("Failed to update protected page with JCR content at " ++ page_path) }, trace)

/-- `update_login_page` (create_login_pages.py). -/
def update_login_page (host : String) (post : PostOracle)
    (page_path : String) (custom_jcr_content : Option Dict) :
    PageResult × List Request :=
  if pyFalsy custom_jcr_content then
    ({ success := false
       page_path := page_path
       error := some "No JCR content provided for login page. JCR content is required to update the page." }, [])
  else
    let page_data := dictSet (custom_jcr_content.getD []) "_charset_" "utf-8"
    let (ok, trace) := update_page_with_jcr_content host post page_path page_data
    if ok then
      ({ success := true
         page_path := page_path
         message := some ("Page updated at " ++ page_path) }, trace)
    else
      ({ success := false
         page_path := page_path
         error := some ("Failed to update login page with JCR content at " ++ page_path) }, trace)

/-- Modelled from the spec: `update_hcp_modal_popup` lives in
`app/services/create_popup_pages.py`, which is imported by the content
endpoints but is not present in the source tree.  Per spec section 4.2 all
page-update helpers share one contract: validate the payload is present and
non-empty (else fail with a missing-content error before any network call),
append the fixed encoding directive, call the write helper, and report
success/failure with the target path. -/
def update_hcp_modal_popup (host : String) (post : PostOracle)
    (page_path : String) (custom_jcr_content : Option Dict) :
    PageResult × List Request :=
  if pyFalsy custom_jcr_content then
    ({ success := false
       page_path := page_path
       error := some "No JCR content provided for HCP modal popup. JCR content is required to update the page." }, [])
  else
    let page_data := dictSet (custom_jcr_content.getD []) "_charset_" "utf-8"
    let (ok, trace) := update_page_with_jcr_content host post page_path page_data
    if ok then
      ({ success := true
         page_path := page_path
         message := some ("Page updated at " ++ page_path) }, trace)
    else
      ({ success := false
         page_path := page_path
         error := some ("Failed to update HCP modal popup with JCR content at " ++ page_path) }, trace)

/-- `modify_site_locale` (modify_locale.py): `None` payload is an explicit
skip (`success=True, skipped=True`), an empty payload is an error; both
issue no network call. -/
def modify_site_locale (host : String) (post : PostOracle)
    (page_path : String) (custom_jcr_content : Option Dict) :
    PageResult × List Request :=
  match custom_jcr_content with
  | none =>
      ({ success := true
         page_path := page_path
         skipped := true
         message := some "Locale modification skipped - no content provided" }, [])
  | some d =>
      if d.isEmpty then
        ({ success := false
           page_path := page_path
           error := some "Empty JCR content provided for locale modification. JCR content cannot be empty." }, [])
      else
        let page_data := dictSet d "_charset_" "utf-8"
        let (ok, trace) := update_page_with_jcr_content host post page_path page_data
        if ok then
          ({ success := true
             page_path := page_path
             message := some ("Locale modified at " ++ page_path) }, trace)
        else
          ({ success := false
             page_path := page_path
             error := some ("Failed to modify locale with JCR content at " ++ page_path) }, trace)

/-- Response schema of POST /content/create-error-pages. -/
structure ErrorPageCreateResponse where
  success : Bool
  message : String
  deriving Repr, DecidableEq

/-- Endpoint `create_error_pages` (content.py): updates the 404 page, then
the 500 page, and aggregates; both sub-calls are always attempted and no
rollback request is ever issued. -/
def create_error_pages_endpoint (host : String) (post : PostOracle)
    (page_path_404 page_path_500 : String)
    (jcr_content_404 jcr_content_500 : Dict) :
    ErrorPageCreateResponse × List Request :=
  let (result_404, t404) := create_error_page host post page_path_404 "404" (some jcr_content_404)
  let (result_500, t500) := create_error_page host post page_path_500 "500" (some jcr_content_500)
  let all_successful := result_404.success && result_500.success
  ({ success := all_successful
     message :=
       if all_successful then "Successfully updated 404 and 500 error pages"
       else "Partial success: Some error page updates failed" }, t404 ++ t500)

/-- The DAM backend as an explicit world: which folder paths exist, and
which create requests the backend would accept. -/
structure DAMWorld where
  existsPaths : List String
  createOk : String → Bool

/-- Status the backend answers to the existence-probe GET. -/
def damGetStatus (w : DAMWorld) (path : String) : Nat :=
  if w.existsPaths.contains path then 200 else 404

/-- `check_folder_exists` (dam_folder_operations.py): GET the folder path,
exists iff status 200. -/
def check_folder_exists (w : DAMWorld) (folder_path : String) : Bool :=
  damGetStatus w folder_path == 200

/-- The backend transition for a folder-create POST: an accepted create
adds the path and answers 201, a rejected one leaves the world unchanged
with an error status. -/
def damPost (w : DAMWorld) (path : String) : DAMWorld × Nat :=
  if w.createOk path then ({ w with existsPaths := w.existsPaths ++ [path] }, 201)
  else (w, 500)

/-- `create_dam_folder` (dam_folder_operations.py), world-passing form used
by the folder-structure claims: POST the fixed sling folder payload,
succeed iff status 200/201. -/
def create_dam_folder_w (w : DAMWorld) (folder_path folder_title : String) :
    DAMWorld × Bool :=
  let _folder_data : Dict :=
    [("jcr:primaryType", "sling:Folder"), ("jcr:title", folder_title), ("_charset_", "utf-8")]
  let (w1, status) := damPost w folder_path
  (w1, status == 200 || status == 201)

/-- `create_dam_folder`, trace form used by the security-header claim:
the POST is issued with no per-call headers and carries the charset form
field. -/
def create_dam_folder (host : String) (post : PostOracle)
    (folder_path folder_title : String) : Bool × List Request :=
  let folder_data : Dict :=
    [("jcr:primaryType", "sling:Folder"), ("jcr:title", folder_title), ("_charset_", "utf-8")]
  let req : Request := ⟨"POST", host ++ folder_path, folder_data, []⟩
  let status := post (host ++ folder_path) folder_data
  ((status == 200 || status == 201), [req])

/-- Result dict of `create_folder_structure`.  An early-return failure is a
fresh dict holding only the success flag and the error, exactly as in the
source. -/
structure FolderResult where
  success : Bool
  error : Option String := none
  hcp_images_path : Option String := none
  hcp_pdfs_path : Option String := none
  patient_images_path : Option String := none
  patient_pdfs_path : Option String := none
  created_folders : List String := []
  message : Option String := none
  deriving Repr

/-- One check-then-create block of `create_folder_structure`: skip when the
folder exists, otherwise create it and record it, failing with the given
message when the create is rejected. -/
def stepFolder (w : DAMWorld) (created : List String) (path title errMsg : String) :
    Except String (DAMWorld × List String) :=
  if check_folder_exists w path then .ok (w, created)
  else
    let (w1, ok) := create_dam_folder_w w path title
    if ok then .ok (w1, created ++ [path]) else .error errMsg

/-- The `for site_type in sites_to_create` loop of
`create_folder_structure`: per site type, the site folder, its Images
folder and its PDFs folder, recording the result paths. -/
def sitesLoop (w : DAMWorld) (res : FolderResult) (locale_path : String) :
    List String → DAMWorld × FolderResult
  | [] => (w, res)
  | site_type :: rest =>
    let site_path := locale_path ++ "/" ++ site_type
    match stepFolder w res.created_folders site_path site_type
        ("Failed to create site folder: " ++ site_path) with
    | .error e => (w, { success := false, error := some e })
    | .ok (w1, created1) =>
      let images_path := site_path ++ "/Images"
      match stepFolder w1 created1 images_path "Images"
          ("Failed to create Images folder: " ++ images_path) with
      | .error e => (w1, { success := false, error := some e })
      | .ok (w2, created2) =>
        let pdfs_path := site_path ++ "/PDFs"
        match stepFolder w2 created2 pdfs_path "PDFs"
            ("Failed to create PDFs folder: " ++ pdfs_path) with
        | .error e => (w2, { success := false, error := some e })
        | .ok (w3, created3) =>
          let res1 :=
            if site_type = "HCP" then
              { res with created_folders := created3
                         hcp_images_path := some images_path
                         hcp_pdfs_path := some pdfs_path }
            else if site_type = "Patient" then
              { res with created_folders := created3
                         patient_images_path := some images_path
                         patient_pdfs_path := some pdfs_path }
            else
              { res with created_folders := created3 }
          sitesLoop w3 res1 locale_path rest

/-- Python `str.upper()` (ASCII inputs), as a character-wise map. -/
def pyUpper (s : String) : String := ⟨s.data.map Char.toUpper⟩

/-- Python `str.lower()` (ASCII inputs), as a character-wise map. -/
def pyLower (s : String) : String := ⟨s.data.map Char.toLower⟩

/-- Python `str.replace(old, new)` for single-character patterns. -/
def pyReplaceChar (s : String) (pat rep : Char) : String :=
  ⟨s.data.map (fun c => if c = pat then rep else c)⟩

/-- Python `str.rstrip(chars)` for the single character `/`. -/
def rstripSlash (s : String) : String :=
  ⟨(s.data.reverse.dropWhile (fun c => c = '/')).reverse⟩

/-- Python `str.startswith(pre)`, as a character-list test. -/
def pyStartsWith (s pre : String) : Bool := pre.data.isPrefixOf s.data

/-- `create_folder_structure` (dam_folder_operations.py): validate the site
type, build the market/locale paths, then check-or-create market, locale
and the per-site Images/PDFs hierarchy, aborting at the first rejected
create.  (The invalid-site message is reproduced without its quote marks.) -/
def create_folder_structure (w : DAMWorld) (dam_path market locale site : String) :
    DAMWorld × FolderResult :=
  let site_u := pyUpper site
  if !(site_u = "HCP" || site_u = "PATIENT" || site_u = "BOTH") then
    (w, { success := false, error := some "Invalid site type. Must be HCP, Patient, or Both" })
  else
    let dam_path1 := rstripSlash dam_path
    let market_path := dam_path1 ++ "/" ++ market
    let locale_path := market_path ++ "/" ++ locale
    match stepFolder w [] market_path market
        ("Failed to create market folder: " ++ market_path) with
    | .error e => (w, { success := false, error := some e })
    | .ok (w1, created1) =>
      match stepFolder w1 created1 locale_path locale
          ("Failed to create locale folder: " ++ locale_path) with
      | .error e => (w1, { success := false, error := some e })
      | .ok (w2, created2) =>
        let sites_to_create :=
          if site_u = "HCP" then ["HCP"]
          else if site_u = "PATIENT" then ["Patient"]
          else ["HCP", "Patient"]
        let (w3, res) :=
          sitesLoop w2 { success := true, created_folders := created2 } locale_path sites_to_create
        if res.success then
          let n := res.created_folders.length
          let msg :=
            if 0 < n then "Successfully created " ++ toString n ++ " folder(s)"
            else "All folders already exist"
          (w3, { res with message := some msg })
        else (w3, res)

/-- Result dict of `AEMClient.duplicate_page_template`. -/
structure DupResult where
  success : Bool
  source_path : String
  new_path : Option String := none
  message : Option String := none
  error : Option String := none
  deriving Repr

/-- `AEMClient.duplicate_page_template` (aem_utils.py): POST the copy
operation to the source path, then POST the title/property update to the
destination, both with the `_get_headers()` security header; a non-2xx
status on either step raises, is caught, and becomes a failure result
(whose error text, `str(e)` in the source, is abstracted here). -/
def duplicate_page_template (host : String) (post : PostOracle)
    (csrf_token : Option String)
    (source_path destination_parent_path new_page_name new_page_title : String)
    (additional_properties : Dict) : DupResult × List Request :=
  let new_page_path := destination_parent_path ++ "/" ++ new_page_name
  let copy_data : Dict :=
    [(":operation", "copy"), (":dest", new_page_path), (":async", "true"), ("_charset_", "utf-8")]
  let copyReq : Request := ⟨"POST", host ++ source_path, copy_data, getHeaders csrf_token⟩
  let s1 := post (host ++ source_path) copy_data
  if !(is2xx s1) then
    ({ success := false, source_path := source_path, error := some "copy request failed" },
     [copyReq])
  else
    let base : Dict := [("jcr:content/jcr:title", new_page_title), ("_charset_", "utf-8")]
    let update_data := additional_properties.foldl
      (fun d p =>
        let prop_key := if pyStartsWith p.1 "jcr:content/" then p.1 else "jcr:content/" ++ p.1
        dictSet d prop_key p.2) base
    let updReq : Request := ⟨"POST", host ++ new_page_path, update_data, getHeaders csrf_token⟩
    let s2 := post (host ++ new_page_path) update_data
    if !(is2xx s2) then
      ({ success := false, source_path := source_path, error := some "update request failed" },
       [copyReq, updReq])
    else
      ({ success := true
         source_path := source_path
         new_path := some new_page_path
         message := some ("Successfully duplicated template to " ++ new_page_path) },
       [copyReq, updReq])

/-- Destination page-name computation of the `duplicate_empty_template`
endpoint (sites.py lines 35-36): lower-case the market region, replace
spaces with hyphens, prefix with `hcp-`. -/
def duplicate_template_page_name (market_region : String) : String :=
  let market_sanitized := pyReplaceChar (pyLower market_region) ' ' '-'
  "hcp-" ++ market_sanitized

/-- A handled web-framework error response (FastAPI `HTTPException`):
rendered by the framework as an HTTP error with a detail body, never an
unhandled exception. -/
structure HTTPExc where
  status : Nat
  detail : String
  deriving Repr, DecidableEq

/-- Response schema of POST /sites/list-pages. -/
structure ListPagesResponse where
  success : Bool
  jcr_content : Option Dict := none
  error_details : Option String := none
  deriving Repr, DecidableEq

/-- The site backend as seen by the list-pages endpoint: status of the
login-surface probe GET, and status plus parsed JSON body (a flat property
map here) of the `.infinity.json` tree read per path. -/
structure SiteBackend where
  loginStatus : Nat
  nodeStatus : String → Nat
  nodeBody : String → Dict

/-- `AEMClient.list_pages` (aem_utils.py): GET `{path}.infinity.json`,
return the parsed body on 2xx, re-raise (here: `Except.error`) otherwise. -/
def client_list_pages (b : SiteBackend) (site_path : String) : Except String Dict :=
  if is2xx (b.nodeStatus site_path) then .ok (b.nodeBody site_path)
  else .error "HTTP status error"

/-- `AEMClient.test_connection` against the same backend: true iff the
login-surface GET answers exactly 200. -/
def test_connection_b (b : SiteBackend) : Bool := b.loginStatus == 200

/-- Endpoint `list_pages` (sites.py): probe the connection (400 when
unreachable), read the subtree; a read failure becomes a handled 404
`HTTPException`, an empty body a `success=false` response, a non-empty
body a `success=true` response. -/
def list_pages_endpoint (b : SiteBackend) (site_path : String) :
    Except HTTPExc ListPagesResponse :=
  if !(test_connection_b b) then
    .error ⟨400, "Cannot connect to AEM instance"⟩
  else
    match client_list_pages b site_path with
    | .ok jcr_content =>
        if jcr_content.isEmpty then
          .ok { success := false
                error_details := some ("No content found at path: " ++ site_path) }
        else
          .ok { success := true, jcr_content := some jcr_content }
    | .error _ =>
        .error ⟨404, "Site path not found or inaccessible: " ++ site_path⟩

/-- `AEMClient.test_connection` (aem_utils.py) with the transport layer
made explicit: the probe GET either yields a status or a transport
exception; the method returns `status == 200` and downgrades the exception
to `false`.  Total by construction: it never raises. -/
def test_connection (probe : Except String Nat) : Bool :=
  match probe with
  | .ok s => s == 200
  | .error _ => false

/-- Body of the GET /health/aem response. -/
structure HealthResponse where
  status : String
  aem : String
  deriving Repr, DecidableEq

/-- Endpoint `aem_health` (health.py): reports healthy/connected iff the
connectivity probe succeeded.  Total by construction: every probe outcome
is mapped to a response, none to an exception. -/
def aem_health (probe : Except String Nat) : HealthResponse :=
  let is_connected := test_connection probe
  { status := if is_connected then "healthy" else "unhealthy"
    aem := if is_connected then "connected" else "disconnected" }

/-- A tiny heap of Python dict objects, addressed by allocation index: the
page-update helpers receive their payload dict by reference, so whether
they mutate the caller object or a copy is observable.  -/
abbrev Heap := List Dict

/-- Dereference an address (out-of-range reads give the empty dict). -/
def heapGet (h : Heap) (a : Nat) : Dict := h.getD a []

/-- In-place mutation of the dict at an address. -/
def heapSet (h : Heap) (a : Nat) (d : Dict) : Heap := h.set a d

/-- Allocate a fresh dict object, returning its address. -/
def heapAlloc (h : Heap) (d : Dict) : Heap × Nat := (h ++ [d], h.length)

/-- The payload-preparation fragment shared verbatim by
create_error_pages.py, create_login_pages.py and create_protected_pages.py
(`page_data = custom_jcr_content.copy()` then
`page_data["_charset_"] = "utf-8"`), with the dict aliasing explicit: copy
allocates a fresh cell, the charset write mutates that fresh cell. -/
def preparePageData (h : Heap) (a : Nat) : Heap × Nat :=
  let (h1, b) := heapAlloc h (heapGet h a)
  let h2 := heapSet h1 b (dictSet (heapGet h1 b) "_charset_" "utf-8")
  (h2, b)

/-- Heap-passing form of the shared page-update helper body: the caller's
payload lives at address `a`; returns result, request trace and final
heap. -/
def page_update_heap (host : String) (post : PostOracle) (page_path : String)
    (missingMsg failMsg : String) (error_type : Option String)
    (h : Heap) (a : Nat) : PageResult × List Request × Heap :=
  if (heapGet h a).isEmpty then
    ({ success := false, page_path := page_path, error := some missingMsg
       error_type := error_type }, [], h)
  else
    let (h2, b) := preparePageData h a
    let (ok, trace) := update_page_with_jcr_content host post page_path (heapGet h2 b)
    if ok then
      ({ success := true, page_path := page_path, error_type := error_type
         message := some ("Page updated at " ++ page_path) }, trace, h2)
    else
      ({ success := false, page_path := page_path, error := some failMsg
         error_type := error_type }, trace, h2)

/-- `create_error_page`, heap-passing form. -/
def create_error_page_heap (host : String) (post : PostOracle)
    (page_path error_type : String) (h : Heap) (a : Nat) :
    PageResult × List Request × Heap :=
  page_update_heap host post page_path
    ("No JCR content provided for " ++ error_type ++
      " error page. JCR content is required to update the page.")
    ("Failed to update error page with JCR content at " ++ page_path)
    (some error_type) h a

/-- `update_login_page`, heap-passing form. -/
def update_login_page_heap (host : String) (post : PostOracle)
    (page_path : String) (h : Heap) (a : Nat) :
    PageResult × List Request × Heap :=
  page_update_heap host post page_path
    "No JCR content provided for login page. JCR content is required to update the page."
    ("Failed to update login page with JCR content at " ++ page_path)
    none h a

/-- `update_protected_page`, heap-passing form. -/
def update_protected_page_heap (host : String) (post : PostOracle)
    (page_path : String) (h : Heap) (a : Nat) :
    PageResult × List Request × Heap :=
  page_update_heap host post page_path
    "No JCR content provided for protected page. JCR content is required to update the page."
    ("Failed to update protected page with JCR content at " ++ page_path)
    none h a

/-! ## Helper lemmas -/

/-- Setting a key makes the pair a member. -/
lemma mem_dictSet_self (d : Dict) (k v : String) : (k, v) ∈ dictSet d k v := by
  unfold dictSet
  by_cases h : d.any (fun p => p.1 = k)
  · simp only [h, if_pos]
    rcases List.any_eq_true.mp h with ⟨p, hp, hk⟩
    exact List.mem_map.mpr ⟨p, hp, by simp [of_decide_eq_true hk]⟩
  · simp only [h]
    simp

/-- Setting a different key preserves membership. -/
lemma mem_dictSet_of_mem {d : Dict} {k' v' : String} (k v : String)
    (h : (k', v') ∈ d) (hk : k' ≠ k) : (k', v') ∈ dictSet d k v := by
  unfold dictSet
  by_cases ha : d.any (fun p => p.1 = k)
  · simp only [ha, if_pos]
    exact List.mem_map.mpr ⟨(k', v'), h, by simp [hk]⟩
  · simp only [ha]
    exact List.mem_append_left _ h

/-! ## Claim theorems -/

/-- C7: Duplicate-template sanitization is a deterministic function of the
market-region label (lower-case, spaces to hyphens): for input
"New Zealand" the destination page-name segment is exactly
"hcp-new-zealand". -/
theorem duplicate_template_sanitize_new_zealand :
    duplicate_template_page_name "New Zealand" = "hcp-new-zealand" := by
  decide

/-- C10: `modify_site_locale` distinguishes an absent payload from an
empty one: `None` yields `success=true, skipped=true` with no network
call; a present-but-empty payload yields `success=false` with an error
detail and likewise no network call. -/
theorem modify_site_locale_none_vs_empty :
    ∀ (host : String) (post : PostOracle) (page_path : String),
      modify_site_locale host post page_path none =
        ({ success := true, page_path := page_path, skipped := true
           message := some "Locale modification skipped - no content provided" }, []) ∧
      modify_site_locale host post page_path (some []) =
        ({ success := false, page_path := page_path
           error := some "Empty JCR content provided for locale modification. JCR content cannot be empty." }, []) :=
  fun _ _ _ => ⟨rfl, rfl⟩

/-- C2: every page-update operation (error page, protected page, popup,
login page) invoked with an absent (`None`) or empty payload returns a
failure result carrying the missing-content error and issues zero network
calls. -/
theorem page_update_missing_content_no_network :
    ∀ (host : String) (post : PostOracle) (page_path error_type : String),
      create_error_page host post page_path error_type none =
        ({ success := false, page_path := page_path
           error := some ("No JCR content provided for " ++ error_type ++
             " error page. JCR content is required to update the page.")
           error_type := some error_type }, []) ∧
      create_error_page host post page_path error_type (some []) =
        ({ success := false, page_path := page_path
           error := some ("No JCR content provided for " ++ error_type ++
             " error page. JCR content is required to update the page.")
           error_type := some error_type }, []) ∧
      update_protected_page host post page_path none =
        ({ success := false, page_path := page_path
           error := some "No JCR content provided for protected page. JCR content is required to update the page." }, []) ∧
      update_protected_page host post page_path (some []) =
        ({ success := false, page_path := page_path
           error := some "No JCR content provided for protected page. JCR content is required to update the page." }, []) ∧
      update_login_page host post page_path none =
        ({ success := false, page_path := page_path
           error := some "No JCR content provided for login page. JCR content is required to update the page." }, []) ∧
      update_login_page host post page_path (some []) =
        ({ success := false, page_path := page_path
           error := some "No JCR content provided for login page. JCR content is required to update the page." }, []) ∧
      update_hcp_modal_popup host post page_path none =
        ({ success := false, page_path := page_path
           error := some "No JCR content provided for HCP modal popup. JCR content is required to update the page." }, []) ∧
      update_hcp_modal_popup host post page_path (some []) =
        ({ success := false, page_path := page_path
           error := some "No JCR content provided for HCP modal popup. JCR content is required to update the page." }, []) :=
  fun _ _ _ _ => ⟨rfl, rfl, rfl, rfl, rfl, rfl, rfl, rfl⟩

/-- C8: the connectivity probe `test_connection` is a total boolean
function of the probe outcome, true exactly on status 200 (any non-200
status or transport exception is downgraded to false), and on any non-200
probe the `/health/aem` endpoint reports `status=unhealthy`. -/
theorem test_connection_bool_and_health_unhealthy :
    (∀ probe : Except String Nat, (test_connection probe = true ↔ probe = Except.ok 200)) ∧
    (∀ probe : Except String Nat,
      probe ≠ Except.ok 200 → (aem_health probe).status = "unhealthy") := by
  constructor
  · intro probe
    cases probe with
    | ok s => simp [test_connection]
    | error e => simp [test_connection]
  · intro probe hne
    cases probe with
    | ok s =>
        have hs : s ≠ 200 := fun h => hne (by rw [h])
        simp [aem_health, test_connection, hs]
    | error e => simp [aem_health, test_connection]

/-- C8 witness: a 503 probe yields an unhealthy report. -/
theorem test_connection_bool_and_health_unhealthy_witness :
    (aem_health (Except.ok 503)).status = "unhealthy" :=
  test_connection_bool_and_health_unhealthy.2 (Except.ok 503) (by simp)

/-- C6 counterexample: on a path whose node read answers 404 the endpoint
does NOT return a `success=false` body; it yields the handled 404
`HTTPException` instead. -/
theorem list_pages_absent_node_http_404 :
    list_pages_endpoint ⟨200, fun _ => 404, fun _ => []⟩ "/content/x" =
      Except.error ⟨404, "Site path not found or inaccessible: /content/x"⟩ :=
  rfl

/-- C6 amended: with the backend reachable, a failed node read (e.g. a
404 for an absent node) is reported as a handled `HTTPException` with
status 404 and an explanatory detail, and an empty-but-readable node body
is reported as a `success=false` response with a not-found detail; in
either case the endpoint yields a value, never an unhandled exception. -/
theorem list_pages_not_found_reporting :
    ∀ (b : SiteBackend) (site_path : String), b.loginStatus = 200 →
      (is2xx (b.nodeStatus site_path) = false →
        list_pages_endpoint b site_path =
          Except.error ⟨404, "Site path not found or inaccessible: " ++ site_path⟩) ∧
      (b.nodeStatus site_path = 200 → b.nodeBody site_path = [] →
        list_pages_endpoint b site_path =
          Except.ok { success := false, jcr_content := none
                      error_details := some ("No content found at path: " ++ site_path) }) := by
  intro b sp hl
  constructor
  · intro hn
    simp [list_pages_endpoint, test_connection_b, client_list_pages, hl, hn]
  · intro hn hb
    simp [list_pages_endpoint, test_connection_b, client_list_pages, hl, hn, hb, is2xx]

/-- C6 witness: concrete backends for both reporting modes. -/
theorem list_pages_not_found_reporting_witness :
    list_pages_endpoint ⟨200, fun _ => 404, fun _ => []⟩ "/p" =
      Except.error ⟨404, "Site path not found or inaccessible: /p"⟩ ∧
    list_pages_endpoint ⟨200, fun _ => 200, fun _ => []⟩ "/p" =
      Except.ok { success := false, jcr_content := none
                  error_details := some "No content found at path: /p" } :=
  ⟨(list_pages_not_found_reporting ⟨200, fun _ => 404, fun _ => []⟩ "/p" rfl).1 rfl,
   (list_pages_not_found_reporting ⟨200, fun _ => 200, fun _ => []⟩ "/p" rfl).2 rfl rfl⟩

/-- C1 counterexample: 204 is a 2xx status, yet the page-update helper
reports failure for it, because the code accepts only 200 and 201. -/
theorem create_error_page_2xx_204_not_success :
    is2xx 204 = true ∧
    (create_error_page "h" (fun _ _ => 204) "/p" "404" (some [("a", "b")])).1.success = false :=
  ⟨rfl, rfl⟩

/-- C1 amended: for every page-update request with a non-empty payload,
if the remote write call returns status 200 or 201, the helper returns
`success=true` together with the echoed target path. -/
theorem create_error_page_success_on_200_201 :
    ∀ (host : String) (post : PostOracle) (page_path error_type : String) (payload : Dict),
      payload ≠ [] →
      (post (host ++ page_path) (dictSet payload "_charset_" "utf-8") = 200 ∨
       post (host ++ page_path) (dictSet payload "_charset_" "utf-8") = 201) →
      (create_error_page host post page_path error_type (some payload)).1.success = true ∧
      (create_error_page host post page_path error_type (some payload)).1.page_path = page_path := by
  intro host post pp et payload hne hs
  have hfal : pyFalsy (some payload) = false := by
    cases payload with
    | nil => exact absurd rfl hne
    | cons p t => rfl
  rcases hs with h | h <;>
    simp [create_error_page, update_page_with_jcr_content, hfal, h]

/-- C1 witness: a concrete 200 write yields success and the echoed path. -/
theorem create_error_page_success_on_200_201_witness :
    (create_error_page "h" (fun _ _ => 200) "/p" "404" (some [("a", "b")])).1.success = true ∧
    (create_error_page "h" (fun _ _ => 200) "/p" "404" (some [("a", "b")])).1.page_path = "/p" :=
  create_error_page_success_on_200_201 "h" (fun _ _ => 200) "/p" "404" [("a", "b")]
    (by decide) (Or.inl rfl)

/-- C5: in the create-both-404-and-500 flow, if exactly one of the two
writes fails, the aggregate response has `success=false` with the partial
success message, and the trace is exactly the two page writes: both are
attempted and no rollback request follows. -/
theorem create_error_pages_partial_failure :
    ∀ (host : String) (post : PostOracle) (p404 p500 : String) (c404 c500 : Dict),
      c404 ≠ [] → c500 ≠ [] →
      (((post (host ++ p404) (dictSet c404 "_charset_" "utf-8") = 200 ∨
         post (host ++ p404) (dictSet c404 "_charset_" "utf-8") = 201) ∧
        ¬(post (host ++ p500) (dictSet c500 "_charset_" "utf-8") = 200 ∨
          post (host ++ p500) (dictSet c500 "_charset_" "utf-8") = 201)) ∨
       (¬(post (host ++ p404) (dictSet c404 "_charset_" "utf-8") = 200 ∨
          post (host ++ p404) (dictSet c404 "_charset_" "utf-8") = 201) ∧
        (post (host ++ p500) (dictSet c500 "_charset_" "utf-8") = 200 ∨
         post (host ++ p500) (dictSet c500 "_charset_" "utf-8") = 201))) →
      (create_error_pages_endpoint host post p404 p500 c404 c500).1.success = false ∧
      (create_error_pages_endpoint host post p404 p500 c404 c500).1.message =
        "Partial success: Some error page updates failed" ∧
      (create_error_pages_endpoint host post p404 p500 c404 c500).2 =
        [⟨"POST", host ++ p404, dictSet c404 "_charset_" "utf-8", []⟩,
         ⟨"POST", host ++ p500, dictSet c500 "_charset_" "utf-8", []⟩] := by
  intro host post p404 p500 c404 c500 h4 h5 hx
  have hf4 : pyFalsy (some c404) = false := by
    cases c404 with
    | nil => exact absurd rfl h4
    | cons p t => rfl
  have hf5 : pyFalsy (some c500) = false := by
    cases c500 with
    | nil => exact absurd rfl h5
    | cons p t => rfl
  rcases hx with ⟨hok, hbad⟩ | ⟨hbad, hok⟩
  · obtain ⟨n1, n2⟩ := not_or.mp hbad
    have b4 : ((post (host ++ p404) (dictSet c404 "_charset_" "utf-8") == 200) ||
               (post (host ++ p404) (dictSet c404 "_charset_" "utf-8") == 201)) = true := by
      rcases hok with h | h <;> simp [h]
    have b5 : ((post (host ++ p500) (dictSet c500 "_charset_" "utf-8") == 200) ||
               (post (host ++ p500) (dictSet c500 "_charset_" "utf-8") == 201)) = false := by
      simp [n1, n2]
    simp [create_error_pages_endpoint, create_error_page,
      update_page_with_jcr_content, hf4, hf5, b4, b5]
  · obtain ⟨n1, n2⟩ := not_or.mp hbad
    have b4 : ((post (host ++ p404) (dictSet c404 "_charset_" "utf-8") == 200) ||
               (post (host ++ p404) (dictSet c404 "_charset_" "utf-8") == 201)) = false := by
      simp [n1, n2]
    have b5 : ((post (host ++ p500) (dictSet c500 "_charset_" "utf-8") == 200) ||
               (post (host ++ p500) (dictSet c500 "_charset_" "utf-8") == 201)) = true := by
      rcases hok with h | h <;> simp [h]
    simp [create_error_pages_endpoint, create_error_page,
      update_page_with_jcr_content, hf4, hf5, b4, b5]

/-- C5 witness: a backend accepting the 404-page write and rejecting the
500-page write yields the partial-success aggregate with both writes in
the trace. -/
theorem create_error_pages_partial_failure_witness :
    (create_error_pages_endpoint "h" (fun u _ => if u = "h/p4" then 200 else 500)
      "/p4" "/p5" [("a", "b")] [("c", "d")]).1.success = false ∧
    (create_error_pages_endpoint "h" (fun u _ => if u = "h/p4" then 200 else 500)
      "/p4" "/p5" [("a", "b")] [("c", "d")]).1.message =
      "Partial success: Some error page updates failed" ∧
    (create_error_pages_endpoint "h" (fun u _ => if u = "h/p4" then 200 else 500)
      "/p4" "/p5" [("a", "b")] [("c", "d")]).2 =
      [⟨"POST", "h" ++ "/p4", dictSet [("a", "b")] "_charset_" "utf-8", []⟩,
       ⟨"POST", "h" ++ "/p5", dictSet [("c", "d")] "_charset_" "utf-8", []⟩] :=
  create_error_pages_partial_failure "h" (fun u _ => if u = "h/p4" then 200 else 500)
    "/p4" "/p5" [("a", "b")] [("c", "d")] (by decide) (by decide)
    (Or.inl ⟨Or.inl (by decide), by decide⟩)

/-- The payload-preparation step leaves the caller's cell untouched: the
charset write lands on the freshly allocated copy, not on address `a`. -/
lemma preparePageData_fst_frame (h : Heap) (a : Nat) (ha : a < h.length) :
    heapGet (preparePageData h a).1 a = heapGet h a := by
  show heapGet (heapSet (h ++ [heapGet h a]) h.length
      (dictSet (heapGet (h ++ [heapGet h a]) h.length) "_charset_" "utf-8")) a = heapGet h a
  unfold heapGet heapSet
  rw [List.getD_eq_getElem?_getD, List.getD_eq_getElem?_getD,
      List.getElem?_set_ne (Ne.symm (Nat.ne_of_lt ha)),
      List.getElem?_append_left ha]

/-- The prepared wire data is the caller's payload with `_charset_` set. -/
lemma preparePageData_wire (h : Heap) (a : Nat) :
    heapGet (preparePageData h a).1 (preparePageData h a).2 =
      dictSet (heapGet h a) "_charset_" "utf-8" := by
  have hcell : heapGet (h ++ [heapGet h a]) h.length = heapGet h a := by
    unfold heapGet
    rw [List.getD_eq_getElem?_getD, List.getElem?_concat_length]
    rfl
  show heapGet (heapSet (h ++ [heapGet h a]) h.length
      (dictSet (heapGet (h ++ [heapGet h a]) h.length) "_charset_" "utf-8")) h.length =
    dictSet (heapGet h a) "_charset_" "utf-8"
  rw [hcell]
  unfold heapGet heapSet
  rw [List.getD_eq_getElem?_getD, List.getElem?_set_eq_of_lt _ (by simp)]
  rfl

/-- Frame property of the shared heap-passing page-update body. -/
lemma page_update_heap_frame (host : String) (post : PostOracle)
    (page_path missingMsg failMsg : String) (error_type : Option String)
    (h : Heap) (a : Nat) :
    heapGet (page_update_heap host post page_path missingMsg failMsg error_type h a).2.2 a =
      heapGet h a ∧
    ((heapGet h a).isEmpty = false →
      (page_update_heap host post page_path missingMsg failMsg error_type h a).2.1 =
        [⟨"POST", host ++ page_path, dictSet (heapGet h a) "_charset_" "utf-8", []⟩]) := by
  by_cases he : (heapGet h a).isEmpty
  · constructor
    · simp [page_update_heap, he]
    · intro hf
      rw [he] at hf
      cases hf
  · have hb : (heapGet h a).isEmpty = false := by
      cases hv : (heapGet h a).isEmpty
      · rfl
      · exact absurd hv he
    have ha : a < h.length := by
      by_contra hlt
      push_neg at hlt
      have hnone : heapGet h a = [] := by
        unfold heapGet
        rw [List.getD_eq_getElem?_getD, List.getElem?_eq_none_iff.mpr hlt]
        rfl
      rw [hnone] at hb
      cases hb
    constructor
    · have hfr := preparePageData_fst_frame h a ha
      simp only [page_update_heap, hb, Bool.false_eq_true, if_false,
        update_page_with_jcr_content]
      split <;> exact hfr
    · intro _
      have hw := preparePageData_wire h a
      simp only [page_update_heap, hb, Bool.false_eq_true, if_false,
        update_page_with_jcr_content]
      split <;> rw [hw]

/-- C9: the page-update helpers leave the caller's payload mapping
unchanged — the fixed `_charset_` directive is appended only to the copy
sent over the wire (the single POST request carries the payload with
charset set), never to the caller's dict cell. -/
theorem page_update_preserves_caller_payload :
    ∀ (host : String) (post : PostOracle) (page_path error_type : String)
      (h : Heap) (a : Nat),
      (heapGet (create_error_page_heap host post page_path error_type h a).2.2 a =
          heapGet h a ∧
        ((heapGet h a).isEmpty = false →
          (create_error_page_heap host post page_path error_type h a).2.1 =
            [⟨"POST", host ++ page_path, dictSet (heapGet h a) "_charset_" "utf-8", []⟩])) ∧
      (heapGet (update_login_page_heap host post page_path h a).2.2 a = heapGet h a ∧
        ((heapGet h a).isEmpty = false →
          (update_login_page_heap host post page_path h a).2.1 =
            [⟨"POST", host ++ page_path, dictSet (heapGet h a) "_charset_" "utf-8", []⟩])) ∧
      (heapGet (update_protected_page_heap host post page_path h a).2.2 a = heapGet h a ∧
        ((heapGet h a).isEmpty = false →
          (update_protected_page_heap host post page_path h a).2.1 =
            [⟨"POST", host ++ page_path, dictSet (heapGet h a) "_charset_" "utf-8", []⟩])) :=
  fun host post page_path error_type h a =>
    ⟨page_update_heap_frame host post page_path _ _ (some error_type) h a,
     page_update_heap_frame host post page_path _ _ none h a,
     page_update_heap_frame host post page_path _ _ none h a⟩

/-- C9 witness: with the caller's payload `[("k","v")]` in cell 0, the call
leaves cell 0 unchanged while the wire request carries the charset-extended
copy. -/
theorem page_update_preserves_caller_payload_witness :
    heapGet (create_error_page_heap "h" (fun _ _ => 200) "/p" "404" [[("k", "v")]] 0).2.2 0 =
      [("k", "v")] ∧
    (create_error_page_heap "h" (fun _ _ => 200) "/p" "404" [[("k", "v")]] 0).2.1 =
      [⟨"POST", "h" ++ "/p", dictSet [("k", "v")] "_charset_" "utf-8", []⟩] :=
  ⟨(page_update_preserves_caller_payload "h" (fun _ _ => 200) "/p" "404" [[("k", "v")]] 0).1.1,
   (page_update_preserves_caller_payload "h" (fun _ _ => 200) "/p" "404" [[("k", "v")]] 0).1.2 rfl⟩

/-- The per-property key built by the template-duplication update is never
the charset key: it always starts with the `jcr:content/` path prefix. -/
lemma charset_ne_prop_key (p : String × String) :
    ("_charset_" : String) ≠
      (if pyStartsWith p.1 "jcr:content/" then p.1 else "jcr:content/" ++ p.1) := by
  by_cases hs : pyStartsWith p.1 "jcr:content/" = true
  · rw [if_pos hs]
    intro he
    rw [← he] at hs
    exact absurd hs (by decide)
  · rw [if_neg hs]
    intro he
    have hlen := congrArg String.length he
    rw [String.length_append] at hlen
    have e1 : ("_charset_" : String).length = 9 := rfl
    have e2 : ("jcr:content/" : String).length = 12 := rfl
    rw [e1, e2] at hlen
    omega

/-- The charset pair survives folding the additional properties into the
update payload. -/
lemma charset_mem_update_data (props : Dict) (d : Dict)
    (h : ("_charset_", "utf-8") ∈ d) :
    ("_charset_", "utf-8") ∈ props.foldl
      (fun d p =>
        let prop_key := if pyStartsWith p.1 "jcr:content/" then p.1 else "jcr:content/" ++ p.1
        dictSet d prop_key p.2) d := by
  induction props generalizing d with
  | nil => exact h
  | cons p rest ih =>
      exact ih _ (mem_dictSet_of_mem _ _ h (charset_ne_prop_key p))

/-- Trace of `create_error_page`: nothing when the payload is falsy, else
exactly one POST of the charset-extended payload with no per-call
headers. -/
lemma create_error_page_trace (host : String) (post : PostOracle)
    (page_path error_type : String) (payload : Option Dict) :
    (create_error_page host post page_path error_type payload).2 =
      if pyFalsy payload then []
      else [⟨"POST", host ++ page_path, dictSet (payload.getD []) "_charset_" "utf-8", []⟩] := by
  by_cases hf : pyFalsy payload = true
  · simp [create_error_page, hf]
  · have hf' : pyFalsy payload = false := by
      cases hv : pyFalsy payload
      · rfl
      · exact absurd hv hf
    simp only [create_error_page, update_page_with_jcr_content, hf', Bool.false_eq_true,
      if_false]
    split <;> rfl

/-- Trace of `update_protected_page`. -/
lemma update_protected_page_trace (host : String) (post : PostOracle)
    (page_path : String) (payload : Option Dict) :
    (update_protected_page host post page_path payload).2 =
      if pyFalsy payload then []
      else [⟨"POST", host ++ page_path, dictSet (payload.getD []) "_charset_" "utf-8", []⟩] := by
  by_cases hf : pyFalsy payload = true
  · simp [update_protected_page, hf]
  · have hf' : pyFalsy payload = false := by
      cases hv : pyFalsy payload
      · rfl
      · exact absurd hv hf
    simp only [update_protected_page, update_page_with_jcr_content, hf', Bool.false_eq_true,
      if_false]
    split <;> rfl

/-- Trace of `update_login_page`. -/
lemma update_login_page_trace (host : String) (post : PostOracle)
    (page_path : String) (payload : Option Dict) :
    (update_login_page host post page_path payload).2 =
      if pyFalsy payload then []
      else [⟨"POST", host ++ page_path, dictSet (payload.getD []) "_charset_" "utf-8", []⟩] := by
  by_cases hf : pyFalsy payload = true
  · simp [update_login_page, hf]
  · have hf' : pyFalsy payload = false := by
      cases hv : pyFalsy payload
      · rfl
      · exact absurd hv hf
    simp only [update_login_page, update_page_with_jcr_content, hf', Bool.false_eq_true,
      if_false]
    split <;> rfl

/-- Trace of `update_hcp_modal_popup`. -/
lemma update_hcp_modal_popup_trace (host : String) (post : PostOracle)
    (page_path : String) (payload : Option Dict) :
    (update_hcp_modal_popup host post page_path payload).2 =
      if pyFalsy payload then []
      else [⟨"POST", host ++ page_path, dictSet (payload.getD []) "_charset_" "utf-8", []⟩] := by
  by_cases hf : pyFalsy payload = true
  · simp [update_hcp_modal_popup, hf]
  · have hf' : pyFalsy payload = false := by
      cases hv : pyFalsy payload
      · rfl
      · exact absurd hv hf
    simp only [update_hcp_modal_popup, update_page_with_jcr_content, hf', Bool.false_eq_true,
      if_false]
    split <;> rfl

/-- Trace of `modify_site_locale`. -/
lemma modify_site_locale_trace (host : String) (post : PostOracle)
    (page_path : String) (payload : Option Dict) :
    (modify_site_locale host post page_path payload).2 =
      match payload with
      | none => []
      | some d =>
          if d.isEmpty then []
          else [⟨"POST", host ++ page_path, dictSet d "_charset_" "utf-8", []⟩] := by
  cases payload with
  | none => rfl
  | some d =>
      by_cases he : d.isEmpty = true
      · simp [modify_site_locale, he]
      · have he' : d.isEmpty = false := by
          cases hv : d.isEmpty
          · rfl
          · exact absurd hv he
        simp only [modify_site_locale, update_page_with_jcr_content, he', Bool.false_eq_true,
          if_false]
        split <;> rfl

/-- Trace of `AEMClient.duplicate_page_template`: the copy POST, then the
property-update POST when the copy got a 2xx answer; both carry the
security header. -/
lemma duplicate_page_template_trace (host : String) (post : PostOracle)
    (csrf_token : Option String)
    (source_path destination_parent_path new_page_name new_page_title : String)
    (additional_properties : Dict) :
    (duplicate_page_template host post csrf_token source_path
        destination_parent_path new_page_name new_page_title additional_properties).2 =
      if is2xx (post (host ++ source_path)
          [(":operation", "copy"), (":dest", destination_parent_path ++ "/" ++ new_page_name),
           (":async", "true"), ("_charset_", "utf-8")]) then
        [⟨"POST", host ++ source_path,
          [(":operation", "copy"), (":dest", destination_parent_path ++ "/" ++ new_page_name),
           (":async", "true"), ("_charset_", "utf-8")], getHeaders csrf_token⟩,
         ⟨"POST", host ++ (destination_parent_path ++ "/" ++ new_page_name),
          additional_properties.foldl
            (fun d p =>
              let prop_key :=
                if pyStartsWith p.1 "jcr:content/" then p.1 else "jcr:content/" ++ p.1
              dictSet d prop_key p.2)
            [("jcr:content/jcr:title", new_page_title), ("_charset_", "utf-8")],
          getHeaders csrf_token⟩]
      else
        [⟨"POST", host ++ source_path,
          [(":operation", "copy"), (":dest", destination_parent_path ++ "/" ++ new_page_name),
           (":async", "true"), ("_charset_", "utf-8")], getHeaders csrf_token⟩] := by
  cases hv : is2xx (post (host ++ source_path)
      [(":operation", "copy"), (":dest", destination_parent_path ++ "/" ++ new_page_name),
       (":async", "true"), ("_charset_", "utf-8")]) with
  | false =>
      simp only [duplicate_page_template, hv, Bool.not_false, if_true, Bool.false_eq_true,
        if_false]
  | true =>
      simp only [duplicate_page_template, hv, Bool.not_true, Bool.false_eq_true, if_false,
        if_true]
      split <;> rfl

/-- C3 counterexample: the DAM-folder write is issued with no per-call
headers at all — it carries neither the CSRF-Token header nor the
X-Requested-With fallback. -/
theorem dam_folder_write_without_security_header :
    (create_dam_folder "h" (fun _ _ => 200) "/content/dam/x" "x").2 =
      [⟨"POST", "h/content/dam/x",
        [("jcr:primaryType", "sling:Folder"), ("jcr:title", "x"), ("_charset_", "utf-8")],
        []⟩] ∧
    hasSecurityHeader ⟨"POST", "h/content/dam/x",
      [("jcr:primaryType", "sling:Folder"), ("jcr:title", "x"), ("_charset_", "utf-8")],
      []⟩ = false :=
  ⟨rfl, rfl⟩

/-- C3 amended: every embedded write carries the `_charset_=utf-8` form
field, and the template-duplication writes (the only ones built with
`_get_headers`) carry the CSRF-Token/X-Requested-With security header,
while the page-update and DAM-folder writes are issued with no per-call
headers — neither security header. -/
theorem write_requests_charset_and_headers :
    (∀ (host : String) (post : PostOracle) (csrf_token : Option String)
       (source_path destination_parent_path new_page_name new_page_title : String)
       (additional_properties : Dict) (r : Request),
       r ∈ (duplicate_page_template host post csrf_token source_path
             destination_parent_path new_page_name new_page_title
             additional_properties).2 →
       hasSecurityHeader r = true ∧ ("_charset_", "utf-8") ∈ r.data) ∧
    (∀ (host : String) (post : PostOracle) (page_path error_type : String)
       (payload : Option Dict) (r : Request),
       r ∈ (create_error_page host post page_path error_type payload).2 →
       ("_charset_", "utf-8") ∈ r.data ∧ r.headers = []) ∧
    (∀ (host : String) (post : PostOracle) (page_path : String)
       (payload : Option Dict) (r : Request),
       r ∈ (update_protected_page host post page_path payload).2 →
       ("_charset_", "utf-8") ∈ r.data ∧ r.headers = []) ∧
    (∀ (host : String) (post : PostOracle) (page_path : String)
       (payload : Option Dict) (r : Request),
       r ∈ (update_login_page host post page_path payload).2 →
       ("_charset_", "utf-8") ∈ r.data ∧ r.headers = []) ∧
    (∀ (host : String) (post : PostOracle) (page_path : String)
       (payload : Option Dict) (r : Request),
       r ∈ (update_hcp_modal_popup host post page_path payload).2 →
       ("_charset_", "utf-8") ∈ r.data ∧ r.headers = []) ∧
    (∀ (host : String) (post : PostOracle) (page_path : String)
       (payload : Option Dict) (r : Request),
       r ∈ (modify_site_locale host post page_path payload).2 →
       ("_charset_", "utf-8") ∈ r.data ∧ r.headers = []) ∧
    (∀ (host : String) (post : PostOracle) (folder_path folder_title : String)
       (r : Request),
       r ∈ (create_dam_folder host post folder_path folder_title).2 →
       ("_charset_", "utf-8") ∈ r.data ∧ r.headers = []) := by
  refine ⟨?_, ?_, ?_, ?_, ?_, ?_, ?_⟩
  · intro host post csrf sp dpp npn npt props r hr
    have hgh : ∀ (m u : String) (d : Dict),
        hasSecurityHeader ⟨m, u, d, getHeaders csrf⟩ = true := by
      intro m u d
      cases csrf <;> simp [hasSecurityHeader, getHeaders]
    rw [duplicate_page_template_trace] at hr
    split at hr
    · simp only [List.mem_cons, List.mem_singleton, List.not_mem_nil, or_false] at hr
      rcases hr with rfl | rfl
      · exact ⟨hgh _ _ _, by simp⟩
      · exact ⟨hgh _ _ _, charset_mem_update_data props _ (by simp)⟩
    · simp only [List.mem_singleton] at hr
      subst hr
      exact ⟨hgh _ _ _, by simp⟩
  · intro host post pp et payload r hr
    rw [create_error_page_trace] at hr
    split at hr
    · simp at hr
    · simp only [List.mem_singleton] at hr
      subst hr
      exact ⟨mem_dictSet_self _ _ _, rfl⟩
  · intro host post pp payload r hr
    rw [update_protected_page_trace] at hr
    split at hr
    · simp at hr
    · simp only [List.mem_singleton] at hr
      subst hr
      exact ⟨mem_dictSet_self _ _ _, rfl⟩
  · intro host post pp payload r hr
    rw [update_login_page_trace] at hr
    split at hr
    · simp at hr
    · simp only [List.mem_singleton] at hr
      subst hr
      exact ⟨mem_dictSet_self _ _ _, rfl⟩
  · intro host post pp payload r hr
    rw [update_hcp_modal_popup_trace] at hr
    split at hr
    · simp at hr
    · simp only [List.mem_singleton] at hr
      subst hr
      exact ⟨mem_dictSet_self _ _ _, rfl⟩
  · intro host post pp payload r hr
    cases payload with
    | none => exact absurd hr (List.not_mem_nil r)
    | some d =>
        by_cases he : d.isEmpty = true
        · have htr : (modify_site_locale host post pp (some d)).2 = [] := by
            simp [modify_site_locale, he]
          rw [htr] at hr
          exact absurd hr (List.not_mem_nil r)
        · have he' : d.isEmpty = false := by
            cases hv : d.isEmpty
            · rfl
            · exact absurd hv he
          have htr : (modify_site_locale host post pp (some d)).2 =
              [⟨"POST", host ++ pp, dictSet d "_charset_" "utf-8", []⟩] := by
            simp only [modify_site_locale, update_page_with_jcr_content, he',
              Bool.false_eq_true, if_false]
            split <;> rfl
          rw [htr] at hr
          simp only [List.mem_singleton] at hr
          subst hr
          exact ⟨mem_dictSet_self _ _ _, rfl⟩
  · intro host post fp ft r hr
    have htr : (create_dam_folder host post fp ft).2 =
        [⟨"POST", host ++ fp,
          [("jcr:primaryType", "sling:Folder"), ("jcr:title", ft), ("_charset_", "utf-8")],
          []⟩] := rfl
    rw [htr] at hr
    simp only [List.mem_singleton] at hr
    subst hr
    exact ⟨by simp, rfl⟩

/-- C3 witness: the concrete copy request of a template duplication with
no token fetched carries the fallback header and the charset field. -/
theorem write_requests_charset_and_headers_witness :
    hasSecurityHeader ⟨"POST", "h" ++ "/s",
      [(":operation", "copy"), (":dest", "/d" ++ "/" ++ "n"), (":async", "true"),
       ("_charset_", "utf-8")], getHeaders none⟩ = true ∧
    ("_charset_", "utf-8") ∈
      (⟨"POST", "h" ++ "/s",
        [(":operation", "copy"), (":dest", "/d" ++ "/" ++ "n"), (":async", "true"),
         ("_charset_", "utf-8")], getHeaders none⟩ : Request).data :=
  write_requests_charset_and_headers.1 "h" (fun _ _ => 200) none "/s" "/d" "n" "t" [] _
    (List.mem_cons_self _ _)

/-- The existence probe answers 200 exactly for paths in the world. -/
lemma check_folder_exists_iff (w : DAMWorld) (p : String) :
    check_folder_exists w p = true ↔ p ∈ w.existsPaths := by
  unfold check_folder_exists damGetStatus
  by_cases h : w.existsPaths.contains p = true
  · rw [if_pos h]
    simpa using List.elem_iff.mp h
  · rw [if_neg h]
    constructor
    · intro hc
      cases hc
    · intro hm
      exact absurd (List.elem_iff.mpr hm) h

/-- A check-then-create block on an already existing path is a no-op. -/
lemma stepFolder_of_mem (w : DAMWorld) (created : List String) {p : String} (t e : String)
    (h : p ∈ w.existsPaths) : stepFolder w created p t e = .ok (w, created) := by
  unfold stepFolder
  rw [if_pos ((check_folder_exists_iff w p).mpr h)]

/-- A successful check-then-create block makes the path exist and only
grows the world. -/
lemma stepFolder_ok_mem {w w' : DAMWorld} {created created' : List String} {p t e : String}
    (h : stepFolder w created p t e = .ok (w', created')) :
    p ∈ w'.existsPaths ∧ ∀ q ∈ w.existsPaths, q ∈ w'.existsPaths := by
  unfold stepFolder create_dam_folder_w damPost at h
  by_cases hc : check_folder_exists w p = true
  · rw [if_pos hc] at h
    injection h with h'
    cases h'
    exact ⟨(check_folder_exists_iff w p).mp hc, fun q hq => hq⟩
  · rw [if_neg hc] at h
    by_cases hk : w.createOk p = true
    · simp only [hk, if_true] at h
      simp only [show ((201 : Nat) == 200 || (201 : Nat) == 201) = true from rfl,
        if_true] at h
      injection h with h'
      cases h'
      exact ⟨by simp, fun q hq => List.mem_append_left _ hq⟩
    · simp only [hk] at h
      simp at h

/-- After a successful pass of the per-site loop, every handled folder path
exists in the final world, and the world only grew. -/
lemma sitesLoop_success_mem (locale_path : String) :
    ∀ (sts : List String) (w : DAMWorld) (res : FolderResult),
      ((sitesLoop w res locale_path sts).2).success = true →
      (∀ q ∈ w.existsPaths, q ∈ (sitesLoop w res locale_path sts).1.existsPaths) ∧
      ∀ st ∈ sts,
        (locale_path ++ "/" ++ st) ∈ (sitesLoop w res locale_path sts).1.existsPaths ∧
        (locale_path ++ "/" ++ st ++ "/Images") ∈
          (sitesLoop w res locale_path sts).1.existsPaths ∧
        (locale_path ++ "/" ++ st ++ "/PDFs") ∈
          (sitesLoop w res locale_path sts).1.existsPaths := by
  intro sts
  induction sts with
  | nil =>
      intro w res _
      exact ⟨fun q hq => hq, by simp⟩
  | cons st rest ih =>
      intro w res hs
      cases h1 : stepFolder w res.created_folders (locale_path ++ "/" ++ st) st
          ("Failed to create site folder: " ++ (locale_path ++ "/" ++ st)) with
      | error e =>
          simp only [sitesLoop, h1] at hs
          cases hs
      | ok p1 =>
          obtain ⟨w1, c1⟩ := p1
          cases h2 : stepFolder w1 c1 (locale_path ++ "/" ++ st ++ "/Images") "Images"
              ("Failed to create Images folder: " ++ (locale_path ++ "/" ++ st ++ "/Images")) with
          | error e =>
              simp only [sitesLoop, h1, h2] at hs
              cases hs
          | ok p2 =>
              obtain ⟨w2, c2⟩ := p2
              cases h3 : stepFolder w2 c2 (locale_path ++ "/" ++ st ++ "/PDFs") "PDFs"
                  ("Failed to create PDFs folder: " ++ (locale_path ++ "/" ++ st ++ "/PDFs")) with
              | error e =>
                  simp only [sitesLoop, h1, h2, h3] at hs
                  cases hs
              | ok p3 =>
                  obtain ⟨w3, c3⟩ := p3
                  simp only [sitesLoop, h1, h2, h3] at hs ⊢
                  obtain ⟨hm1, hg1⟩ := stepFolder_ok_mem h1
                  obtain ⟨hm2, hg2⟩ := stepFolder_ok_mem h2
                  obtain ⟨hm3, hg3⟩ := stepFolder_ok_mem h3
                  obtain ⟨ihg, ihmem⟩ := ih w3 _ hs
                  refine ⟨fun q hq => ihg q (hg3 _ (hg2 _ (hg1 _ hq))), ?_⟩
                  intro st' hst'
                  rcases List.mem_cons.mp hst' with rfl | hst'
                  · exact ⟨ihg _ (hg3 _ (hg2 _ hm1)), ihg _ (hg3 _ hm2), ihg _ hm3⟩
                  · exact ihmem st' hst'

/-- When every folder path of the per-site loop already exists, the loop
changes nothing: same world, same success flag, same created list. -/
lemma sitesLoop_all_exist (locale_path : String) :
    ∀ (sts : List String) (w : DAMWorld) (res : FolderResult),
      (∀ st ∈ sts,
        (locale_path ++ "/" ++ st) ∈ w.existsPaths ∧
        (locale_path ++ "/" ++ st ++ "/Images") ∈ w.existsPaths ∧
        (locale_path ++ "/" ++ st ++ "/PDFs") ∈ w.existsPaths) →
      (sitesLoop w res locale_path sts).1 = w ∧
      ((sitesLoop w res locale_path sts).2).success = res.success ∧
      ((sitesLoop w res locale_path sts).2).created_folders = res.created_folders := by
  intro sts
  induction sts with
  | nil =>
      intro w res _
      exact ⟨rfl, rfl, rfl⟩
  | cons st rest ih =>
      intro w res hall
      obtain ⟨h1, h2, h3⟩ := hall st (by simp)
      have e1 := stepFolder_of_mem w res.created_folders st
        ("Failed to create site folder: " ++ (locale_path ++ "/" ++ st)) h1
      have e2 := stepFolder_of_mem w res.created_folders "Images"
        ("Failed to create Images folder: " ++ (locale_path ++ "/" ++ st ++ "/Images")) h2
      have e3 := stepFolder_of_mem w res.created_folders "PDFs"
        ("Failed to create PDFs folder: " ++ (locale_path ++ "/" ++ st ++ "/PDFs")) h3
      simp only [sitesLoop, e1, e2, e3]
      have hrest : ∀ st' ∈ rest,
          (locale_path ++ "/" ++ st') ∈ w.existsPaths ∧
          (locale_path ++ "/" ++ st' ++ "/Images") ∈ w.existsPaths ∧
          (locale_path ++ "/" ++ st' ++ "/PDFs") ∈ w.existsPaths :=
        fun st' h' => hall st' (List.mem_cons_of_mem _ h')
      obtain ⟨ihw, ihs, ihc⟩ := ih w _ hrest
      refine ⟨ihw, ?_, ?_⟩
      · rw [ihs]
        split
        · rfl
        · split <;> rfl
      · rw [ihc]
        split
        · rfl
        · split <;> rfl

/-- C4: folder-structure creation is idempotent — when a first invocation
succeeds, a second invocation with identical inputs against the resulting
world creates no new folders, reports the all-folders-already-exist
message, and returns `success=true` with the world unchanged. -/
theorem create_folder_structure_idempotent :
    ∀ (w w1 : DAMWorld) (r1 : FolderResult) (dam_path market locale site : String),
      create_folder_structure w dam_path market locale site = (w1, r1) →
      r1.success = true →
      ∃ r2 : FolderResult,
        create_folder_structure w1 dam_path market locale site = (w1, r2) ∧
        r2.success = true ∧ r2.created_folders = [] ∧
        r2.message = some "All folders already exist" := by
  intro w w1 r1 dp mk lc st h hr
  simp only [create_folder_structure] at h
  split at h
  case isTrue hcond =>
    injection h with hw hr1
    subst hw
    subst hr1
    exact Bool.noConfusion hr
  case isFalse hcond =>
    cases hm : stepFolder w [] (rstripSlash dp ++ "/" ++ mk) mk
        ("Failed to create market folder: " ++ (rstripSlash dp ++ "/" ++ mk)) with
    | error e =>
        simp only [hm] at h
        injection h with hw hr1
        subst hw
        subst hr1
        exact Bool.noConfusion hr
    | ok pa =>
        obtain ⟨wa, ca⟩ := pa
        simp only [hm] at h
        cases hl : stepFolder wa ca (rstripSlash dp ++ "/" ++ mk ++ "/" ++ lc) lc
            ("Failed to create locale folder: " ++ (rstripSlash dp ++ "/" ++ mk ++ "/" ++ lc)) with
        | error e =>
            simp only [hl] at h
            injection h with hw hr1
            subst hw
            subst hr1
            exact Bool.noConfusion hr
        | ok pb =>
            obtain ⟨wb, cb⟩ := pb
            simp only [hl] at h
            rcases hLp : sitesLoop wb { success := true, created_folders := cb }
                (rstripSlash dp ++ "/" ++ mk ++ "/" ++ lc)
                (if pyUpper st = "HCP" then ["HCP"]
                 else if pyUpper st = "PATIENT" then ["Patient"]
                 else ["HCP", "Patient"]) with ⟨wc, res⟩
            simp only [hLp] at h
            cases hres : res.success with
            | false =>
                have hnot : ¬(res.success = true) := by simp [hres]
                rw [if_neg hnot] at h
                injection h with hw hr1
                subst hw
                subst hr1
                rw [hres] at hr
                exact Bool.noConfusion hr
            | true =>
                rw [if_pos hres] at h
                injection h with hw hr1
                subst hw
                subst hr1
                have hmem := sitesLoop_success_mem
                  (rstripSlash dp ++ "/" ++ mk ++ "/" ++ lc)
                  (if pyUpper st = "HCP" then ["HCP"]
                   else if pyUpper st = "PATIENT" then ["Patient"]
                   else ["HCP", "Patient"])
                  wb { success := true, created_folders := cb }
                  (by rw [hLp]; exact hres)
                simp only [hLp] at hmem
                obtain ⟨hgLoop, hstMem⟩ := hmem
                obtain ⟨hmM, hgM⟩ := stepFolder_ok_mem hm
                obtain ⟨hmL, hgL⟩ := stepFolder_ok_mem hl
                have hMc : (rstripSlash dp ++ "/" ++ mk) ∈ wc.existsPaths :=
                  hgLoop _ (hgL _ hmM)
                have hLc : (rstripSlash dp ++ "/" ++ mk ++ "/" ++ lc) ∈ wc.existsPaths :=
                  hgLoop _ hmL
                have sm := stepFolder_of_mem wc [] mk
                  ("Failed to create market folder: " ++ (rstripSlash dp ++ "/" ++ mk)) hMc
                have sl := stepFolder_of_mem wc [] lc
                  ("Failed to create locale folder: " ++
                    (rstripSlash dp ++ "/" ++ mk ++ "/" ++ lc)) hLc
                obtain ⟨ihw, ihs, ihc⟩ := sitesLoop_all_exist
                  (rstripSlash dp ++ "/" ++ mk ++ "/" ++ lc)
                  (if pyUpper st = "HCP" then ["HCP"]
                   else if pyUpper st = "PATIENT" then ["Patient"]
                   else ["HCP", "Patient"])
                  wc { success := true, created_folders := [] } hstMem
                rcases hLp2 : sitesLoop wc { success := true, created_folders := [] }
                    (rstripSlash dp ++ "/" ++ mk ++ "/" ++ lc)
                    (if pyUpper st = "HCP" then ["HCP"]
                     else if pyUpper st = "PATIENT" then ["Patient"]
                     else ["HCP", "Patient"]) with ⟨wd, res2⟩
                simp only [hLp2] at ihw ihs ihc
                subst ihw
                have hmsg : ¬(0 < res2.created_folders.length) := by
                  rw [ihc]
                  simp
                refine ⟨{ res2 with message := some "All folders already exist" },
                  ?_, ?_, ?_, rfl⟩
                · simp only [create_folder_structure]
                  rw [if_neg hcond]
                  simp only [sm, sl, hLp2]
                  rw [if_pos ihs, if_neg hmsg]
                · exact ihs
                · exact ihc

/-- C4 witness: a concrete accepting backend — the first run on an empty
world succeeds, and the theorem yields the no-op second run. -/
theorem create_folder_structure_idempotent_witness :
    ∃ r2 : FolderResult,
      create_folder_structure
        (create_folder_structure ⟨[], fun _ => true⟩ "/dam" "India" "En" "Both").1
        "/dam" "India" "En" "Both" =
        ((create_folder_structure ⟨[], fun _ => true⟩ "/dam" "India" "En" "Both").1, r2) ∧
      r2.success = true ∧ r2.created_folders = [] ∧
      r2.message = some "All folders already exist" :=
  create_folder_structure_idempotent ⟨[], fun _ => true⟩ _ _ "/dam" "India" "En" "Both"
    rfl rfl
